import Mathlib

/-!
Shallow embedding of the GED document-management server storage layer
(`server/storage.ts`, `server/routes.ts`, schema from `shared/schema.ts`).

The relational store is a record of lists of rows; each table row is a
structure mirroring the drizzle/SQL schema (nullable columns are `Option`,
timestamps are `Int` milliseconds).  Each storage method is a Lean function
from a `Store` (plus the call-time inputs, with `now : Int` standing for
`NOW()` / `new Date()`) to the updated `Store` and/or result.  The TypeScript
layer additionally renders timestamps through `toISOString()` before JSON
serialisation; that presentational, value-preserving rendering is omitted:
rows are compared on their stored values.
-/

namespace GED

/-- Row of the `users` table (`shared/schema.ts`). -/
structure User where
  id : Nat
  username : String
  email : String
  firstName : Option String
  lastName : Option String
  role : String
  createdAt : Option Int
  updatedAt : Option Int
deriving Repr, DecidableEq

/-- Row of the `folders` table.  `permissions` is the `jsonb` map of
principal to capability list. -/
structure Folder where
  id : Nat
  name : String
  parentId : Option Nat
  path : String
  type : String
  permissions : List (String × List String)
  createdBy : Nat
  createdAt : Option Int
  updatedAt : Option Int
deriving Repr, DecidableEq

/-- Row of the `documents` table. -/
structure Document where
  id : Nat
  name : String
  originalName : String
  folderId : Nat
  fileType : String
  fileSize : Int
  filePath : String
  mimeType : String
  status : String
  tags : Option (List String)
  description : Option String
  version : Int
  isLatestVersion : Bool
  parentDocumentId : Option Nat
  expirationDate : Option Int
  createdBy : Nat
  createdAt : Option Int
  updatedAt : Option Int
deriving Repr, DecidableEq

/-- Row of the `document_shares` table. -/
structure DocumentShare where
  id : Nat
  documentId : Nat
  shareToken : String
  expiresAt : Option Int
  maxViews : Option Int
  currentViews : Int
  createdBy : Nat
  createdAt : Option Int
deriving Repr, DecidableEq

/-- Row of the `activity_log` table, as inserted by
`DatabaseStorage.logActivity` (id and createdAt are filled by column
defaults and carry no information the claims need; `metadata` is the
jsonb object, modelled as a key-value list). -/
structure ActivityRow where
  userId : Nat
  action : String
  resourceType : String
  resourceId : Nat
  metadata : List (String × String)
deriving Repr, DecidableEq

/-- The relational store: one list of rows per table the claims touch. -/
structure Store where
  users : List User
  folders : List Folder
  documents : List Document
  documentShares : List DocumentShare
  activityLog : List ActivityRow
deriving Repr, DecidableEq

/-- `DatabaseStorage.getFolderById`: first row of `folders` with the id
(`select ... where eq(folders.id, id)`, destructured `[folder]`). -/
def getFolderById (st : Store) (id : Nat) : Option Folder :=
  st.folders.find? (fun f => f.id == id)

/-- Argument record of `DatabaseStorage.createFolder`
(`Omit<InsertFolder, 'path'> & { createdBy: number }`). -/
structure InsertFolder where
  name : String
  parentId : Option Nat
  type : Option String
  permissions : Option (List (String × List String))
  createdBy : Nat
deriving Repr, DecidableEq

/-- Fresh id for a `serial` primary-key insert into `folders`. -/
def nextFolderId (st : Store) : Nat :=
  (st.folders.map (fun f => f.id)).foldr max 0 + 1

/-- `DatabaseStorage.createFolder`.  Mirrors the TypeScript exactly:
`folder.parentId ? (await this.getFolderById(folder.parentId))?.path + "/" + name : folder.name`.
The ternary tests JS truthiness of `parentId` (null/undefined/0 are falsy);
when the parent lookup misses, the optional-chain yields `undefined`, which
the template literal renders as the string `"undefined"`.  The row is then
inserted unconditionally (`INSERT INTO folders ... RETURNING *`) with
`type || 'standard'` and `permissions || {}` defaults and `NOW()`
timestamps, and returned. -/
def createFolder (st : Store) (f : InsertFolder) (now : Int) : Store × Folder :=
  let path :=
    match f.parentId with
    | some p =>
        if p != 0 then
          (match getFolderById st p with
           | some parent => parent.path
           | none => "undefined") ++ "/" ++ f.name
        else f.name
    | none => f.name
  let row : Folder :=
    { id := nextFolderId st
      name := f.name
      parentId := f.parentId
      path := path
      type := match f.type with
        | some t => if t != "" then t else "standard"
        | none => "standard"
      permissions := f.permissions.getD []
      createdBy := f.createdBy
      createdAt := some now
      updatedAt := some now }
  ({ st with folders := st.folders ++ [row] }, row)

/-- A store with no rows at all. -/
def emptyStore : Store := ⟨[], [], [], [], []⟩

/-- C1: calling createFolder with parentId = 5 on a store holding no folder
row with id 5 does not fail with NotFound and does insert a row: the code
silently builds the path from the missed optional-chain lookup, so the
inserted (and returned) folder has path "undefined/A".  This evaluates the
embedded code at the failing input of the code_bug verdict. -/
theorem createFolder_missingParent_inserts :
    (createFolder emptyStore ⟨"A", some 5, none, none, 1⟩ 0).1.folders =
      [(createFolder emptyStore ⟨"A", some 5, none, none, 1⟩ 0).2] ∧
    (createFolder emptyStore ⟨"A", some 5, none, none, 1⟩ 0).2.path = "undefined/A" := by
  exact ⟨rfl, rfl⟩

/-- C2: the returned folder's path is `name` when parentId is null, and is
`parent.path ++ "/" ++ name` when parentId refers to an existing folder P
(in any store whose folder ids are positive, as the serial primary key
guarantees). -/
theorem createFolder_path_spec (st : Store) (f : InsertFolder) (now : Int) :
    (f.parentId = none → (createFolder st f now).2.path = f.name) ∧
    (∀ p P, f.parentId = some p → (∀ g ∈ st.folders, 1 ≤ g.id) →
      getFolderById st p = some P →
      (createFolder st f now).2.path = P.path ++ "/" ++ f.name) := by
  constructor
  · intro h
    simp [createFolder, h]
  · intro p P hp hwf hget
    have hget2 : st.folders.find? (fun f => f.id == p) = some P := hget
    have hmem : P ∈ st.folders := List.mem_of_find?_eq_some hget2
    have hid := List.find?_some hget2
    have hpid : P.id = p := by simpa using hid
    have hpos : 1 ≤ p := hpid ▸ hwf P hmem
    have hne : (p != 0) = true := by simp; omega
    simp [createFolder, hp, hne, hget]

/-- Parent folder used to witness C2. -/
def w2Parent : Folder := ⟨1, "Accounting", none, "Accounting", "standard", [], 1, some 0, some 0⟩

/-- Store used to witness C2. -/
def w2Store : Store := ⟨[], [w2Parent], [], [], []⟩

/-- Witness for C2: creating "Invoices" under the existing root folder
"Accounting" yields path "Accounting/Invoices", and the null-parent case
yields the bare name. -/
theorem createFolder_path_spec_w :
    (createFolder w2Store ⟨"Invoices", some 1, none, none, 1⟩ 0).2.path
        = "Accounting/Invoices" ∧
    (createFolder w2Store ⟨"Achats", none, none, none, 1⟩ 0).2.path = "Achats" := by
  constructor
  · exact (createFolder_path_spec w2Store ⟨"Invoices", some 1, none, none, 1⟩ 0).2 1 w2Parent
      rfl (by decide) rfl
  · exact (createFolder_path_spec w2Store ⟨"Achats", none, none, none, 1⟩ 0).1 rfl

/-- Result row of the document queries: all `documents` columns plus the
inner-joined `createdByUser` and `folder` rows
(`Document & { createdByUser: User; folder: Folder }`). -/
structure DocRow where
  doc : Document
  createdByUser : User
  folder : Folder
deriving Repr, DecidableEq

/-- The two inner joins shared by `getDocuments`, `getDocumentById` and
`searchDocuments`:
`innerJoin(users, eq(documents.createdBy, users.id))` and
`innerJoin(folders, eq(documents.folderId, folders.id))` — SQL inner-join
semantics: one output row per matching combination, documents without a
matching user or folder row produce nothing. -/
def joinRows (st : Store) : List DocRow :=
  st.documents.flatMap fun d =>
    (st.users.filter (fun u => u.id == d.createdBy)).flatMap fun u =>
      (st.folders.filter (fun f => f.id == d.folderId)).map fun f =>
        { doc := d, createdByUser := u, folder := f }

/-- Postgres comparison for `ORDER BY created_at DESC`: larger timestamps
first, and NULL sorts as if larger than every value (NULLS FIRST under
DESC). -/
def tsGeB : Option Int → Option Int → Bool
  | none, _ => true
  | some _, none => false
  | some a, some b => decide (b ≤ a)

/-- Row ordering of `orderBy(desc(documents.createdAt))`. -/
abbrev docGeR (a b : DocRow) : Prop := tsGeB a.doc.createdAt b.doc.createdAt = true

instance : IsTotal DocRow docGeR := by
  constructor
  intro a b
  unfold docGeR tsGeB
  rcases a.doc.createdAt with _ | x <;> rcases b.doc.createdAt with _ | y <;> simp <;> omega

instance : IsTrans DocRow docGeR := by
  constructor
  intro a b c
  unfold docGeR tsGeB
  rcases a.doc.createdAt with _ | x <;> rcases b.doc.createdAt with _ | y <;>
    rcases c.doc.createdAt with _ | z <;> simp <;> omega

/-- `orderBy(desc(documents.createdAt))`: the result set sorted by the
descending-timestamp ordering. -/
def sortByCreatedAtDesc (l : List DocRow) : List DocRow :=
  List.insertionSort docGeR l

/-- Common shape of the two listing queries in `storage.ts`:
select all document columns plus the joined user and folder, keep the rows
whose document satisfies the WHERE conjunction `p`, order by `createdAt`
descending. -/
def queryDocs (st : Store) (p : Document → Bool) : List DocRow :=
  sortByCreatedAtDesc ((joinRows st).filter fun r => p r.doc)

/-- The optional folder restriction of `getDocuments`:
`folderId ? eq(documents.folderId, folderId) : undefined` — JS truthiness,
so a missing or zero `folderId` adds no condition. -/
def folderCond (folderId : Option Nat) (d : Document) : Bool :=
  match folderId with
  | some fid => if fid != 0 then d.folderId == fid else true
  | none => true

/-- `DatabaseStorage.getDocuments`:
`where(and(eq(documents.isLatestVersion, true), folderId ? eq(documents.folderId, folderId) : undefined))`
with the two inner joins and descending `createdAt` order. -/
def getDocuments (st : Store) (folderId : Option Nat) : List DocRow :=
  queryDocs st (fun d => d.isLatestVersion && folderCond folderId d)

theorem mem_queryDocs (st : Store) (p : Document → Bool) (r : DocRow) :
    r ∈ queryDocs st p ↔
      (r.doc ∈ st.documents ∧ r.createdByUser ∈ st.users ∧ r.folder ∈ st.folders ∧
       r.createdByUser.id = r.doc.createdBy ∧ r.folder.id = r.doc.folderId ∧
       p r.doc = true) := by
  unfold queryDocs sortByCreatedAtDesc joinRows
  rw [List.mem_insertionSort, List.mem_filter, List.mem_flatMap]
  constructor
  · rintro ⟨⟨d, hd, hrest⟩, hp⟩
    rw [List.mem_flatMap] at hrest
    obtain ⟨u, hu, hrest⟩ := hrest
    rw [List.mem_map] at hrest
    obtain ⟨f, hf, hr⟩ := hrest
    rw [List.mem_filter] at hu hf
    subst hr
    refine ⟨hd, hu.1, hf.1, by simpa using hu.2, by simpa using hf.2, hp⟩
  · rintro ⟨hd, hu, hf, hui, hfi, hp⟩
    refine ⟨⟨r.doc, hd, ?_⟩, hp⟩
    rw [List.mem_flatMap]
    refine ⟨r.createdByUser, List.mem_filter.mpr ⟨hu, by simpa using hui⟩, ?_⟩
    rw [List.mem_map]
    exact ⟨r.folder, List.mem_filter.mpr ⟨hf, by simpa using hfi⟩, rfl⟩

theorem sorted_queryDocs (st : Store) (p : Document → Bool) :
    List.Sorted docGeR (queryDocs st p) :=
  List.sorted_insertionSort docGeR _

/-- The latest-version user row of the counterexample stores. -/
def cexUser : User := ⟨1, "admin", "admin@example.com", none, none, "admin", some 0, some 0⟩

/-- A latest-version document whose `folderId` (7) references no folder
row — reachable because `deleteFolder` does not cascade and the schema has
no foreign-key constraints. -/
def cexDoc : Document :=
  ⟨1, "invoice", "invoice.pdf", 7, "pdf", 10, "/uploads/invoice.pdf",
   "application/pdf", "draft", some [], none, 1, true, none, none, 1,
   some 0, some 0⟩

/-- Store with a latest-version document whose folder row is absent. -/
def cexStore : Store := ⟨[cexUser], [], [cexDoc], [], []⟩

/-- C3 counterexample: the claim promises that getDocuments returns exactly
the latest-version document rows, but on a store holding a latest-version
document whose folder row is absent the inner join drops it and
getDocuments returns the empty list. -/
theorem getDocuments_drops_orphan :
    cexDoc.isLatestVersion = true ∧ cexDoc ∈ cexStore.documents ∧
    getDocuments cexStore none = [] := by
  refine ⟨rfl, ?_, rfl⟩
  simp [cexStore]

/-- C3 (amended): getDocuments(folderId) returns exactly the joined rows
whose creator and folder rows exist with matching ids and whose document
has isLatestVersion = true, restricted to the folder when a nonzero
folderId is supplied, ordered by createdAt descending (SQL nulls first). -/
theorem getDocuments_spec (st : Store) (folderId : Option Nat) :
    (∀ r : DocRow, r ∈ getDocuments st folderId ↔
      (r.doc ∈ st.documents ∧ r.createdByUser ∈ st.users ∧ r.folder ∈ st.folders ∧
       r.createdByUser.id = r.doc.createdBy ∧ r.folder.id = r.doc.folderId ∧
       r.doc.isLatestVersion = true ∧ folderCond folderId r.doc = true)) ∧
    List.Sorted docGeR (getDocuments st folderId) := by
  constructor
  · intro r
    rw [getDocuments, mem_queryDocs]
    simp [Bool.and_eq_true, and_assoc]
  · exact sorted_queryDocs st _

/-- SQL `LIKE` pattern matching on character lists: `%` matches any
(possibly empty) sequence, `_` matches exactly one character, any other
pattern character matches itself.  No escape syntax is used by the code. -/
def likeMatch : List Char → List Char → Bool
  | [], [] => true
  | [], _ :: _ => false
  | '%' :: ps, s =>
      likeMatch ps s ||
        (match s with
         | [] => false
         | _ :: s2 => likeMatch ('%' :: ps) s2)
  | '_' :: _, [] => false
  | '_' :: ps, _ :: s2 => likeMatch ps s2
  | _ :: _, [] => false
  | p :: ps, c :: s2 => p == c && likeMatch ps s2
termination_by ps s => ps.length + s.length

/-- `column LIKE pattern` on strings. -/
def sqlLike (pattern s : String) : Bool :=
  likeMatch pattern.toList s.toList

/-- The interpolated pattern of the search conditions. -/
def likePat (q : String) : String := "%" ++ q ++ "%"

/-- Search filter object of `IStorage.searchDocuments`. -/
structure SearchFilters where
  fileType : Option String
  status : Option String
  createdBy : Option Nat
  tags : Option (List String)
  dateFrom : Option Int
  dateTo : Option Int
deriving Repr, DecidableEq

/-- The mandatory text condition of `searchDocuments`:
`or(like(name, pat), like(originalName, pat), like(description, pat))`.
`description` is nullable and `NULL LIKE pat` is not true in SQL, so a null
description contributes nothing to the disjunction. -/
def textCond (q : String) (d : Document) : Bool :=
  sqlLike (likePat q) d.name || sqlLike (likePat q) d.originalName ||
    (match d.description with
     | some s => sqlLike (likePat q) s
     | none => false)

/-- The optional filter conditions of `searchDocuments`, each appended only
when the field is JS-truthy (so an empty string or a zero id adds no
condition; `tags` is never consulted).  The date comparisons are on
`documents.createdAt`, and a NULL `createdAt` satisfies neither. -/
def filterCond (fl : SearchFilters) (d : Document) : Bool :=
  (match fl.fileType with
   | some s => if s != "" then d.fileType == s else true
   | none => true) &&
  (match fl.status with
   | some s => if s != "" then d.status == s else true
   | none => true) &&
  (match fl.createdBy with
   | some n => if n != 0 then d.createdBy == n else true
   | none => true) &&
  (match fl.dateFrom with
   | some t =>
      (match d.createdAt with
       | some c => decide (t ≤ c)
       | none => false)
   | none => true) &&
  (match fl.dateTo with
   | some t =>
      (match d.createdAt with
       | some c => decide (c ≤ t)
       | none => false)
   | none => true)

/-- `DatabaseStorage.searchDocuments`: the WHERE conjunction is
`isLatestVersion = true`, the text disjunction, and the truthy filters,
over the same joins and ordering as `getDocuments`. -/
def searchDocuments (st : Store) (q : String) (fl : SearchFilters) : List DocRow :=
  queryDocs st (fun d => d.isLatestVersion && (textCond q d && filterCond fl d))

/-- A filter object with every field absent. -/
def emptyFilters : SearchFilters := ⟨none, none, none, none, none, none⟩

/-- C4 counterexample: the claim promises that searchDocuments returns
exactly the latest-version rows whose name contains the query, but on a
store holding a matching latest-version document whose folder row is absent
the inner join drops it and the result is empty. -/
theorem searchDocuments_drops_orphan :
    cexDoc.isLatestVersion = true ∧ cexDoc.name = "invoice" ∧
    cexDoc ∈ cexStore.documents ∧
    searchDocuments cexStore "invoice" emptyFilters = [] := by
  refine ⟨rfl, rfl, ?_, rfl⟩
  simp [cexStore]

/-- C4 (amended): searchDocuments(query, filters) returns exactly the
joined rows whose creator and folder rows exist, whose document has
isLatestVersion = true and whose name, originalName or non-null description
matches the SQL LIKE pattern %query%, further restricted by fileType,
status and createdBy only when those filters are present and truthy
(non-empty string, nonzero id) and by dateFrom/dateTo when present (rows
with null createdAt fail the date filters); ordered by createdAt
descending; the tags filter is ignored. -/
theorem searchDocuments_spec (st : Store) (q : String) (fl : SearchFilters) :
    (∀ r : DocRow, r ∈ searchDocuments st q fl ↔
      (r.doc ∈ st.documents ∧ r.createdByUser ∈ st.users ∧ r.folder ∈ st.folders ∧
       r.createdByUser.id = r.doc.createdBy ∧ r.folder.id = r.doc.folderId ∧
       r.doc.isLatestVersion = true ∧ textCond q r.doc = true ∧
       filterCond fl r.doc = true)) ∧
    List.Sorted docGeR (searchDocuments st q fl) := by
  constructor
  · intro r
    rw [searchDocuments, mem_queryDocs]
    simp [Bool.and_eq_true, and_assoc]
  · exact sorted_queryDocs st _

/-- C5: the tags field of the filter object is never consulted, so removing
it (setting it to the absent value) leaves the result of searchDocuments
unchanged. -/
theorem searchDocuments_tags_noop (st : Store) (q : String) (fl : SearchFilters) :
    searchDocuments st q fl =
      searchDocuments st q
        { fileType := fl.fileType, status := fl.status, createdBy := fl.createdBy,
          tags := none, dateFrom := fl.dateFrom, dateTo := fl.dateTo } := by
  rfl

/-- Result record of `getDocumentStats`. -/
structure DocumentStats where
  totalDocuments : Nat
  expiringDocuments : Nat
  pendingDocuments : Nat
  totalStorage : Int
deriving Repr, DecidableEq

/-- The SQL predicate
`expirationDate <= now + 7 days` (milliseconds); NULL satisfies it not. -/
def expiringPred (now : Int) (d : Document) : Bool :=
  match d.expirationDate with
  | some e => decide (e ≤ now + 7 * 24 * 60 * 60 * 1000)
  | none => false

/-- The SQL predicate `status = 'pending'`. -/
def pendingPred (d : Document) : Bool := d.status == "pending"

/-- Running aggregate state of the stats query: `count(*)`, the two
filtered counts, and `sum(fileSize)` (NULL until the first row, as SQL
`sum` is). -/
structure AggAcc where
  cnt : Nat
  cntExpiring : Nat
  cntPending : Nat
  sumSize : Option Int
deriving Repr, DecidableEq

/-- One row's contribution to the four aggregates of `getDocumentStats`. -/
def aggStep (now : Int) (acc : AggAcc) (d : Document) : AggAcc :=
  { cnt := acc.cnt + 1
    cntExpiring := acc.cntExpiring + (if expiringPred now d then 1 else 0)
    cntPending := acc.cntPending + (if pendingPred d then 1 else 0)
    sumSize := some (acc.sumSize.getD 0 + d.fileSize) }

/-- `DatabaseStorage.getDocumentStats`: single aggregate pass over the rows
with `isLatestVersion = true`, then the JS `|| 0` coalescing (which turns
the NULL sum of an empty row set into 0). -/
def getDocumentStats (st : Store) (now : Int) : DocumentStats :=
  let acc := (st.documents.filter (fun d => d.isLatestVersion)).foldl
    (aggStep now) ⟨0, 0, 0, none⟩
  { totalDocuments := acc.cnt
    expiringDocuments := acc.cntExpiring
    pendingDocuments := acc.cntPending
    totalStorage := acc.sumSize.getD 0 }

theorem foldl_aggStep (now : Int) (l : List Document) (acc : AggAcc) :
    l.foldl (aggStep now) acc =
      ⟨acc.cnt + l.length,
       acc.cntExpiring + (l.filter (expiringPred now)).length,
       acc.cntPending + (l.filter pendingPred).length,
       if l.isEmpty then acc.sumSize
       else some (acc.sumSize.getD 0 + (l.map (fun d => d.fileSize)).sum)⟩ := by
  induction l generalizing acc with
  | nil => simp
  | cons d t ih =>
      rw [List.foldl_cons, ih]
      rcases acc with ⟨c, ce, cp, s⟩
      simp only [aggStep, AggAcc.mk.injEq, List.length_cons, List.filter_cons,
        List.map_cons, List.isEmpty_cons, List.sum_cons]
      refine ⟨by omega, ?_, ?_, ?_⟩
      · by_cases h : expiringPred now d = true
        · simp [h]
          omega
        · simp [h]
      · by_cases h : pendingPred d = true
        · simp [h]
          omega
        · simp [h]
      · rcases t with _ | ⟨d2, t2⟩
        · simp
        · simp only [List.isEmpty_cons, Bool.false_eq_true, if_false,
            Option.getD_some, List.map_cons, List.sum_cons]
          congr 1
          ring

/-- C6: getDocumentStats computes, over exactly the latest-version rows,
their count, the count of those expiring within 7 days of now, the count of
those with status pending, and the sum of their file sizes, each aggregate
being 0 on an empty latest-version set. -/
theorem getDocumentStats_spec (st : Store) (now : Int) :
    getDocumentStats st now =
      { totalDocuments := (st.documents.filter (fun d => d.isLatestVersion)).length
        expiringDocuments :=
          ((st.documents.filter (fun d => d.isLatestVersion)).filter
            (expiringPred now)).length
        pendingDocuments :=
          ((st.documents.filter (fun d => d.isLatestVersion)).filter
            pendingPred).length
        totalStorage :=
          ((st.documents.filter (fun d => d.isLatestVersion)).map
            (fun d => d.fileSize)).sum } := by
  unfold getDocumentStats
  rw [foldl_aggStep]
  generalize st.documents.filter (fun d => d.isLatestVersion) = l
  rcases l with _ | ⟨d, t⟩
  · simp
  · simp

/-- Update payload of `updateDocument`
(`updateDocumentSchema = createInsertSchema(documents).pick(name, folderId, tags, description, status, expirationDate).partial()`):
an outer `Option` marks a field as supplied, the inner type is the column
type (itself nullable for tags, description and expirationDate). -/
structure UpdateDocument where
  name : Option String
  folderId : Option Nat
  tags : Option (Option (List String))
  description : Option (Option String)
  status : Option String
  expirationDate : Option (Option Int)
deriving Repr, DecidableEq

/-- The `set({ ...document, updatedAt: new Date() })` merge applied to one
row: supplied fields overwrite, absent fields keep the row's value, and
`updatedAt` is stamped. -/
def applyUpdate (u : UpdateDocument) (now : Int) (d : Document) : Document :=
  { d with
    name := u.name.getD d.name
    folderId := u.folderId.getD d.folderId
    tags := u.tags.getD d.tags
    description := u.description.getD d.description
    status := u.status.getD d.status
    expirationDate := u.expirationDate.getD d.expirationDate
    updatedAt := some now }

/-- `DatabaseStorage.updateDocument`: in-place UPDATE of every row matching
`eq(documents.id, id)` (no insert), returning the first updated row. -/
def updateDocument (st : Store) (id : Nat) (u : UpdateDocument) (now : Int) :
    Store × Option Document :=
  ({ st with documents :=
      st.documents.map fun d => if d.id == id then applyUpdate u now d else d },
   ((st.documents.filter (fun d => d.id == id)).map (applyUpdate u now)).head?)

/-- C7: updateDocument creates no row and touches no other table, leaves
every row with a different id unchanged, and on the targeted row writes
exactly the supplied fields among name, folderId, tags, description,
status, expirationDate plus a fresh updatedAt, preserving id, originalName,
fileType, fileSize, filePath, mimeType, version, isLatestVersion,
parentDocumentId, createdBy and createdAt. -/
theorem updateDocument_frame (st : Store) (id : Nat) (u : UpdateDocument) (now : Int) :
    (updateDocument st id u now).1.users = st.users ∧
    (updateDocument st id u now).1.folders = st.folders ∧
    (updateDocument st id u now).1.documentShares = st.documentShares ∧
    (updateDocument st id u now).1.activityLog = st.activityLog ∧
    (updateDocument st id u now).1.documents.length = st.documents.length ∧
    List.Forall₂ (fun d d2 =>
        (d.id ≠ id → d2 = d) ∧
        (d.id = id →
          d2.name = u.name.getD d.name ∧
          d2.folderId = u.folderId.getD d.folderId ∧
          d2.tags = u.tags.getD d.tags ∧
          d2.description = u.description.getD d.description ∧
          d2.status = u.status.getD d.status ∧
          d2.expirationDate = u.expirationDate.getD d.expirationDate ∧
          d2.updatedAt = some now ∧
          d2.id = d.id ∧ d2.originalName = d.originalName ∧
          d2.fileType = d.fileType ∧ d2.fileSize = d.fileSize ∧
          d2.filePath = d.filePath ∧ d2.mimeType = d.mimeType ∧
          d2.version = d.version ∧
          d2.isLatestVersion = d.isLatestVersion ∧
          d2.parentDocumentId = d.parentDocumentId ∧
          d2.createdBy = d.createdBy ∧ d2.createdAt = d.createdAt))
      st.documents (updateDocument st id u now).1.documents := by
  refine ⟨rfl, rfl, rfl, rfl, by simp [updateDocument], ?_⟩
  have : (updateDocument st id u now).1.documents =
      st.documents.map (fun d => if d.id == id then applyUpdate u now d else d) := rfl
  rw [this, List.forall₂_map_right_iff, List.forall₂_same]
  intro d _
  by_cases h : d.id = id
  · have hb : (d.id == id) = true := by simpa using h
    refine ⟨fun hc => absurd h hc, fun _ => ?_⟩
    simp [hb, applyUpdate]
  · have hb : (d.id == id) = false := by simpa using h
    simp [hb, h]

/-- Document used to witness C7. -/
def w7Doc : Document :=
  ⟨1, "contract", "contract.pdf", 1, "pdf", 42, "/uploads/contract.pdf",
   "application/pdf", "draft", some ["x"], none, 1, true, none, none, 1,
   some 0, some 0⟩

/-- Store used to witness C7. -/
def w7Store : Store := ⟨[cexUser], [w2Parent], [w7Doc], [], []⟩

/-- Update payload used to witness C7: only the status field is supplied. -/
def w7Upd : UpdateDocument := ⟨none, none, none, none, some "pending", none⟩

/-- Witness for C7: the frame theorem instantiated on a one-document store
and a status-only update. -/
theorem updateDocument_frame_w :
    (updateDocument w7Store 1 w7Upd 5).1.documents.length =
        w7Store.documents.length ∧
    List.Forall₂ (fun d d2 =>
        (d.id ≠ 1 → d2 = d) ∧
        (d.id = 1 →
          d2.name = w7Upd.name.getD d.name ∧
          d2.folderId = w7Upd.folderId.getD d.folderId ∧
          d2.tags = w7Upd.tags.getD d.tags ∧
          d2.description = w7Upd.description.getD d.description ∧
          d2.status = w7Upd.status.getD d.status ∧
          d2.expirationDate = w7Upd.expirationDate.getD d.expirationDate ∧
          d2.updatedAt = some 5 ∧
          d2.id = d.id ∧ d2.originalName = d.originalName ∧
          d2.fileType = d.fileType ∧ d2.fileSize = d.fileSize ∧
          d2.filePath = d.filePath ∧ d2.mimeType = d.mimeType ∧
          d2.version = d.version ∧
          d2.isLatestVersion = d.isLatestVersion ∧
          d2.parentDocumentId = d.parentDocumentId ∧
          d2.createdBy = d.createdBy ∧ d2.createdAt = d.createdAt))
      w7Store.documents (updateDocument w7Store 1 w7Upd 5).1.documents :=
  ⟨(updateDocument_frame w7Store 1 w7Upd 5).2.2.2.2.1,
   (updateDocument_frame w7Store 1 w7Upd 5).2.2.2.2.2⟩

/-- `DatabaseStorage.getDocumentById`: the same two inner joins, filtered
only on `eq(documents.id, id)` (no `isLatestVersion` condition, no order),
destructured to the first row. -/
def getDocumentById (st : Store) (id : Nat) : Option DocRow :=
  (joinRows st).find? (fun r => r.doc.id == id)

/-- `DatabaseStorage.deleteDocument`: `delete(documents).where(eq(documents.id, id))`. -/
def deleteDocument (st : Store) (id : Nat) : Store :=
  { st with documents := st.documents.filter fun d => !(d.id == id) }

/-- `DatabaseStorage.logActivity`: append one row to `activity_log`
(`metadata: metadata || \x7b\x7d`). -/
def logActivity (st : Store) (userId : Nat) (action resourceType : String)
    (resourceId : Nat) (metadata : List (String × String)) : Store :=
  { st with activityLog :=
      st.activityLog ++ [⟨userId, action, resourceType, resourceId, metadata⟩] }

/-- `fs.unlinkSync`, modelled on a filesystem that is the list of existing
paths: removing a present path yields the shrunk filesystem, removing an
absent path throws. -/
def unlink (fsys : List String) (p : String) : Except Unit (List String) :=
  if p ∈ fsys then Except.ok (fsys.erase p) else Except.error ()

/-- HTTP outcome of the DELETE document route. -/
inductive DeleteResp where
  | notFoundResp : DeleteResp
  | okResp : DeleteResp
deriving Repr, DecidableEq

/-- Handler of `DELETE /api/documents/:id` (`routes.ts`): fetch the
document (404 when absent); try `fs.unlinkSync(document.filePath)` inside
its own try/catch whose catch only logs, so a filesystem failure leaves the
filesystem as it was and falls through; then delete the row and append the
activity entry, answering success. -/
def deleteDocumentRoute (st : Store) (fsys : List String) (id userId : Nat) :
    Store × List String × DeleteResp :=
  match getDocumentById st id with
  | none => (st, fsys, DeleteResp.notFoundResp)
  | some r =>
      let fsys2 := match unlink fsys r.doc.filePath with
        | Except.ok rest => rest
        | Except.error _ => fsys
      let st2 := logActivity (deleteDocument st id) userId "delete_document"
        "document" id []
      (st2, fsys2, DeleteResp.okResp)

/-- C8 (amended): when the joined lookup finds the document (its creator
and folder rows exist) but its backing file is absent from the filesystem,
the DELETE route still removes every row with that id, answers success
rather than erroring, and leaves the filesystem unchanged. -/
theorem deleteRoute_missingFile (st : Store) (fsys : List String) (id userId : Nat)
    (r : DocRow) (hfind : getDocumentById st id = some r)
    (hfile : r.doc.filePath ∉ fsys) :
    (deleteDocumentRoute st fsys id userId).2.2 = DeleteResp.okResp ∧
    (deleteDocumentRoute st fsys id userId).1.documents =
      st.documents.filter (fun d => !(d.id == id)) ∧
    (∀ d ∈ (deleteDocumentRoute st fsys id userId).1.documents, d.id ≠ id) ∧
    (deleteDocumentRoute st fsys id userId).2.1 = fsys := by
  have hroute : deleteDocumentRoute st fsys id userId =
      (logActivity (deleteDocument st id) userId "delete_document" "document" id [],
       fsys, DeleteResp.okResp) := by
    unfold deleteDocumentRoute
    rw [hfind]
    simp [unlink, hfile]
  rw [hroute]
  refine ⟨rfl, rfl, ?_, rfl⟩
  intro d hd
  have := (List.mem_filter.mp hd).2
  simpa using this

/-- Document used to witness C8: its backing file path is not on disk. -/
def w8Doc : Document :=
  ⟨1, "ghost", "ghost.pdf", 1, "pdf", 3, "/uploads/ghost.pdf",
   "application/pdf", "draft", some [], none, 1, true, none, none, 1,
   some 0, some 0⟩

/-- Store used to witness C8 (and C9 reuses its shape): one user, one
folder, one document. -/
def w8Store : Store := ⟨[cexUser], [w2Parent], [w8Doc], [], []⟩

/-- Joined row of the single document of the C8 witness store. -/
def w8Row : DocRow := ⟨w8Doc, cexUser, w2Parent⟩

/-- Witness for C8: deleting the single document on an empty filesystem
succeeds, empties the documents table and leaves the filesystem empty. -/
theorem deleteRoute_missingFile_w :
    (deleteDocumentRoute w8Store [] 1 1).2.2 = DeleteResp.okResp ∧
    (deleteDocumentRoute w8Store [] 1 1).1.documents = [] ∧
    (deleteDocumentRoute w8Store [] 1 1).2.1 = [] := by
  have h := deleteRoute_missingFile w8Store [] 1 1 w8Row rfl (by simp)
  exact ⟨h.1, by rw [h.2.1]; rfl, h.2.2.2⟩

/-- Orphan document used for the C8 counterexample: its folderId (7)
references no folder row — reachable through the upload and update routes,
which accept any folderId and the schema has no foreign keys — and its
backing file is absent from the (empty) filesystem. -/
def c8Doc : Document :=
  ⟨1, "orphan", "orphan.pdf", 7, "pdf", 4, "/uploads/orphan.pdf",
   "application/pdf", "draft", some [], none, 1, true, none, none, 1,
   some 0, some 0⟩

/-- Store holding the orphan document: its creator row exists, its folder
row does not. -/
def c8Store : Store := ⟨[cexUser], [], [c8Doc], [], []⟩

/-- C8 counterexample: the claim promises that deleting any document whose
backing file is absent still removes the database row and completes
successfully, but on an orphan document (dangling folderId) with its file
missing, the route's joined lookup misses, the handler answers 404, and
the row is not removed. -/
theorem deleteRoute_orphan_notFound :
    c8Doc ∈ c8Store.documents ∧ c8Doc.filePath ∉ ([] : List String) ∧
    (deleteDocumentRoute c8Store [] 1 1).2.2 = DeleteResp.notFoundResp ∧
    (deleteDocumentRoute c8Store [] 1 1).1.documents = [c8Doc] := by
  refine ⟨?_, by simp, rfl, rfl⟩
  simp [c8Store]

/-- A document row that is not the latest version of its lineage. -/
def w9Doc : Document :=
  ⟨1, "old-draft", "old-draft.pdf", 1, "pdf", 5, "/uploads/old-draft.pdf",
   "application/pdf", "draft", some [], none, 1, false, some 2, none, 1,
   some 0, some 0⟩

/-- Store holding only that non-latest row (with its user and folder). -/
def w9Store : Store := ⟨[cexUser], [w2Parent], [w9Doc], [], []⟩

/-- C9: getDocumentById does not filter on isLatestVersion: a store row
with isLatestVersion = false is returned by the single-document lookup,
while the listing query on the same store returns nothing. -/
theorem getDocumentById_returns_nonLatest :
    w9Doc.isLatestVersion = false ∧ w9Doc ∈ w9Store.documents ∧
    (getDocumentById w9Store 1).map (fun r => r.doc) = some w9Doc ∧
    getDocuments w9Store none = [] := by
  refine ⟨rfl, ?_, rfl, rfl⟩
  simp [w9Store]

/-- HTTP response of the share route. -/
structure ShareResp where
  success : Bool
  shareUrl : String
  message : String
deriving Repr, DecidableEq

/-- Handler of `POST /api/documents/:id/share` (`routes.ts`): build
`shareUrl` from the request's protocol and host and the freshly generated
random token (the token is an input here, standing for the
`Math.random()` draw), append one activity-log entry carrying the token,
the requested expiry and the URL in its metadata, and answer the URL.  No
other storage call is made. -/
def shareDocumentRoute (st : Store) (id : Nat)
    (expiresIn shareToken protocol host : String) (userId : Nat) :
    Store × ShareResp :=
  let shareUrl := protocol ++ "://" ++ host ++ "/share/" ++ shareToken
  let st2 := logActivity st userId "share_document" "document" id
    [("shareToken", shareToken), ("expiresIn", expiresIn), ("shareUrl", shareUrl)]
  (st2, { success := true, shareUrl := shareUrl,
          message := "Share link created successfully" })

/-- C10: the share route inserts no DocumentShare row and modifies no user,
folder or document row: its only store effect is appending a single
activity-log entry whose metadata carries the generated share token. -/
theorem shareRoute_frame (st : Store) (id : Nat)
    (expiresIn shareToken protocol host : String) (userId : Nat) :
    (shareDocumentRoute st id expiresIn shareToken protocol host userId).1.documentShares
        = st.documentShares ∧
    (shareDocumentRoute st id expiresIn shareToken protocol host userId).1.documents
        = st.documents ∧
    (shareDocumentRoute st id expiresIn shareToken protocol host userId).1.folders
        = st.folders ∧
    (shareDocumentRoute st id expiresIn shareToken protocol host userId).1.users
        = st.users ∧
    (shareDocumentRoute st id expiresIn shareToken protocol host userId).1.activityLog
        = st.activityLog ++
          [⟨userId, "share_document", "document", id,
            [("shareToken", shareToken), ("expiresIn", expiresIn),
             ("shareUrl", protocol ++ "://" ++ host ++ "/share/" ++ shareToken)]⟩] :=
  ⟨rfl, rfl, rfl, rfl, rfl⟩

end GED
